import Mathlib

/-!
Verification of the GeoUtils core of `safe-atlas` (`src/imagery_helper.py`)
against its natural-language specification.

The Python functions are shallowly embedded in Lean:
* raster samples and coordinates are modelled as exact rationals `ℚ`
  (real-valued trigonometry uses `ℝ`),
* `numpy`/Python rounding (`np.round`, `round`) is round-half-to-even,
* Python string processing (`str.split`, `str.strip`, `str.replace`,
  `float`) is modelled over `List Char`,
* fallible code returns `Except`/`Option`.
-/

/- ## Python string primitives -/

/-- The whitespace characters stripped by Python's `str.strip()`
(ASCII subset: space, tab, newline, carriage return, vertical tab, form feed). -/
def isPySpace (c : Char) : Bool :=
  c = ' ' || c = '\t' || c = '\n' || c = '\r' || c = '\x0b' || c = '\x0c'

/-- Python `str.strip()`: drop leading and trailing whitespace. -/
def stripChars (l : List Char) : List Char :=
  ((l.dropWhile isPySpace).reverse.dropWhile isPySpace).reverse

/-- Python `str.split(sep)` for a one-character separator: split at every
occurrence of `sep`, keeping empty pieces (`"".split(sep) = [""]`). -/
def splitOnChar (sep : Char) : List Char → List (List Char)
  | [] => [[]]
  | c :: cs =>
    if c = sep then [] :: splitOnChar sep cs
    else
      match splitOnChar sep cs with
      | [] => [[c]]
      | w :: ws => (c :: w) :: ws

/-- Value of a decimal digit character, `none` for a non-digit. -/
def digitVal (c : Char) : Option ℕ :=
  if '0' ≤ c ∧ c ≤ '9' then some (c.toNat - '0'.toNat) else none

/-- Value of a string of decimal digits (`none` if any character is not a
digit; the empty string yields `some 0`, callers guard emptiness). -/
def digitsVal (l : List Char) : Option ℕ :=
  l.foldl
    (fun acc c =>
      match acc, digitVal c with
      | some a, some d => some (a * 10 + d)
      | _, _ => none)
    (some 0)

/-- Model of Python's `float()` on optionally signed plain decimal literals
(optional surrounding whitespace, optional `+`/`-`, digits with at most one
decimal point, at least one digit).  Exponents, `inf` and `nan` are not
modelled; the geometry strings considered here are plain decimals.
A string `float()` rejects yields `none` (Python raises `ValueError`). -/
def parseFloat (s : List Char) : Option ℚ :=
  let t := stripChars s
  let su : ℚ × List Char :=
    match t with
    | '-' :: rest => (-1, rest)
    | '+' :: rest => (1, rest)
    | _ => (1, t)
  match splitOnChar '.' su.2 with
  | [ip] =>
    if ip.isEmpty then none
    else (digitsVal ip).map (fun n => su.1 * (n : ℚ))
  | [ip, fp] =>
    if ip.isEmpty ∧ fp.isEmpty then none
    else
      match digitsVal ip, digitsVal fp with
      | some i, some f => some (su.1 * ((i : ℚ) + (f : ℚ) / (10 : ℚ) ^ fp.length))
      | _, _ => none
  | _ => none

/- ## Rounding -/

/-- Round half to even on `ℚ`: the rounding of `np.round` and of Python's
built-in `round`. -/
def np_round (q : ℚ) : ℤ :=
  if Int.fract q < 1 / 2 then ⌊q⌋
  else if 1 / 2 < Int.fract q then ⌊q⌋ + 1
  else if ⌊q⌋ % 2 = 0 then ⌊q⌋ else ⌊q⌋ + 1

/- ## RangeRescaler (`to_uint8` in imagery_helper.py) -/

/-- `np.max` of a band (nonempty in all uses; `0` is an unused placeholder
for the empty band, on which `np.max` raises). -/
def listMax : List ℚ → ℚ
  | [] => 0
  | [x] => x
  | x :: y :: ys => max x (listMax (y :: ys))

/-- One sample of `np.round((band / 10000.0)*255.0)` in `to_uint8.scale`:
note the hardcoded `10000.0`. -/
def scaledValue (s : ℚ) : ℚ :=
  ((np_round (s / 10000 * 255) : ℤ) : ℚ)

/-- The inner `scale` of `to_uint8`: if the band's max exceeds 255, round
`(band / 10000.0) * 255.0` elementwise, then set every value above 255 to
255; otherwise return the band unchanged. -/
def scale (band : List ℚ) : List ℚ :=
  if 255 < listMax band then
    (band.map scaledValue).map (fun v => if 255 < v then 255 else v)
  else band

/-- The spec's `rescaleBand(band, lowerBound=0, upperBound=10000)`.  In the
code these bounds are `to_uint8`'s `min`/`max` parameters, which its inner
`scale` never reads: the per-band result is `scale band` for every choice of
the bounds. -/
def rescaleBand (band : List ℚ) (lowerBound upperBound : ℚ) : List ℚ :=
  scale band

/-- Modelled from the spec's words (for comparison with `rescaleBand`):
`scaled = round((sample / upperBound) * 255)` elementwise, then clamp values
above 255, bands with max ≤ 255 passing through unchanged. -/
def rescaleBandClaimed (band : List ℚ) (lowerBound upperBound : ℚ) : List ℚ :=
  if 255 < listMax band then
    (band.map (fun s => ((np_round (s / upperBound * 255) : ℤ) : ℚ))).map
      (fun v => if 255 < v then 255 else v)
  else band

/- ## Helper lemmas -/

theorem listMax_mem (band : List ℚ) (h : band ≠ []) : listMax band ∈ band := by
  induction band with
  | nil => exact absurd rfl h
  | cons x xs ih =>
    cases xs with
    | nil => simp [listMax]
    | cons y ys =>
      rcases max_choice x (listMax (y :: ys)) with hm | hm
      · simp [listMax, hm]
      · simp only [listMax, hm]
        exact List.mem_cons_of_mem _ (ih (by simp))

theorem rescaleBand_length (band : List ℚ) (lowerBound upperBound : ℚ) :
    (rescaleBand band lowerBound upperBound).length = band.length := by
  unfold rescaleBand scale
  split <;> simp

theorem getD_map_q (f : ℚ → ℚ) (l : List ℚ) (i : ℕ) (hi : i < l.length) :
    (l.map f).getD i 0 = f (l.getD i 0) := by
  induction l generalizing i with
  | nil => simp at hi
  | cons x xs ih =>
    cases i with
    | zero => simp
    | succ n =>
      simp only [List.map_cons, List.getD_cons_succ]
      exact ih n (by simpa using hi)

/- ## Claims about the rescaler -/

unseal Rat.inv Rat.add Rat.sub Rat.mul in
/-- Claim C1, amended: for every band whose maximum exceeds 255 the code
rescales with the hardcoded divisor 10000 regardless of the `upperBound`
argument — it agrees with the claimed formula only at `upperBound = 10000` —
and for a band of maximum value 100000 at least one output sample is 255. -/
theorem rescaleBand_ignores_upperBound (band : List ℚ) (lowerBound upperBound : ℚ)
    (hmax : 255 < listMax band) :
    rescaleBand band lowerBound upperBound = rescaleBandClaimed band lowerBound 10000
    ∧ (listMax band = 100000 → (255 : ℚ) ∈ rescaleBand band lowerBound upperBound) := by
  constructor
  · rfl
  · intro h100
    have hne : band ≠ [] := by
      intro hnil
      rw [hnil] at h100
      simp [listMax] at h100
    have hmem : (100000 : ℚ) ∈ band := h100 ▸ listMax_mem band hne
    unfold rescaleBand scale
    rw [if_pos hmax]
    refine List.mem_map.2 ⟨scaledValue 100000, List.mem_map.2 ⟨100000, hmem, rfl⟩, ?_⟩
    have : scaledValue 100000 = 2550 := by decide
    rw [this]
    norm_num

unseal Rat.inv Rat.add Rat.sub Rat.mul in
/-- Claim C1, counterexample to the claim as stated: on the band `[1000]`
(max 1000 > 255) with `upperBound = 20000` the code produces
`round(1000/10000*255) = 26`, not the claimed `round(1000/20000*255) = 13`. -/
theorem rescaleBand_upperBound_counterexample :
    255 < listMax [(1000 : ℚ)]
    ∧ rescaleBand [(1000 : ℚ)] 0 20000 ≠ rescaleBandClaimed [(1000 : ℚ)] 0 20000 := by
  constructor
  · decide
  · decide

unseal Rat.inv Rat.add Rat.sub Rat.mul in
/-- Witness for `rescaleBand_ignores_upperBound` at the band `[100000]`. -/
theorem rescaleBand_ignores_upperBound_witness :
    255 < listMax [(100000 : ℚ)] ∧ (255 : ℚ) ∈ rescaleBand [(100000 : ℚ)] 0 10000 :=
  ⟨by decide, (rescaleBand_ignores_upperBound [(100000 : ℚ)] 0 10000 (by decide)).2 (by decide)⟩

/-- Claim C3: a (nonempty) band whose maximum sample value is at most 255 is
returned unchanged, with no rescaling and no clamping applied. -/
theorem rescaleBand_passthrough (band : List ℚ) (lowerBound upperBound : ℚ)
    (hne : band ≠ []) (hmax : listMax band ≤ 255) :
    rescaleBand band lowerBound upperBound = band := by
  unfold rescaleBand scale
  rw [if_neg (not_lt.2 hmax)]

/-- Witness for `rescaleBand_passthrough`: the all-zero band is returned
unchanged. -/
theorem rescaleBand_passthrough_witness :
    ([(0 : ℚ), 0, 0] ≠ [] ∧ listMax [(0 : ℚ), 0, 0] ≤ 255)
    ∧ rescaleBand [(0 : ℚ), 0, 0] 0 10000 = [(0 : ℚ), 0, 0] :=
  ⟨⟨by decide, by decide⟩,
    rescaleBand_passthrough [(0 : ℚ), 0, 0] 0 10000 (by decide) (by decide)⟩

/-- Claim C5: the rescaler clamps only at the upper bound 255 — a sample
whose scaled value is negative appears in the output as that negative value,
never replaced by 0. -/
theorem rescaleBand_no_lower_clamp (band : List ℚ) (lowerBound upperBound : ℚ)
    (i : ℕ) (hi : i < band.length) (hmax : 255 < listMax band)
    (hneg : scaledValue (band.getD i 0) < 0) :
    (rescaleBand band lowerBound upperBound).getD i 0 = scaledValue (band.getD i 0)
    ∧ (rescaleBand band lowerBound upperBound).getD i 0 < 0 := by
  have hkey : (rescaleBand band lowerBound upperBound).getD i 0
      = scaledValue (band.getD i 0) := by
    unfold rescaleBand scale
    rw [if_pos hmax]
    rw [getD_map_q _ _ i (by simpa using hi), getD_map_q _ _ i hi]
    rw [if_neg (not_lt.2 (le_of_lt (lt_trans hneg (by norm_num))))]
  exact ⟨hkey, hkey ▸ hneg⟩

unseal Rat.inv Rat.add Rat.sub Rat.mul in
/-- Witness for `rescaleBand_no_lower_clamp` on the band `[-10000, 300]`:
the first output sample is the negative value `-255`. -/
theorem rescaleBand_no_lower_clamp_witness :
    (0 < ([(-10000 : ℚ), 300]).length ∧ 255 < listMax [(-10000 : ℚ), 300]
      ∧ scaledValue ([(-10000 : ℚ), 300].getD 0 0) < 0)
    ∧ (rescaleBand [(-10000 : ℚ), 300] 0 10000).getD 0 0
        = scaledValue ([(-10000 : ℚ), 300].getD 0 0)
    ∧ (rescaleBand [(-10000 : ℚ), 300] 0 10000).getD 0 0 < 0 :=
  ⟨⟨by decide, by decide, by decide⟩,
    rescaleBand_no_lower_clamp [(-10000 : ℚ), 300] 0 10000 0 (by decide) (by decide) (by decide)⟩

/- ## GeometryTextConverter (`bbox_to_corners`, `bbox_to_GeoJSON`) -/

/-- Errors of the geometry-text parser: `malformed` models the explicit
`raise Exception('Input bounding box is invalid')` / `'Input point is
invalid'` structural checks (the spec's `MalformedGeometryError`);
`valueError` models the `ValueError` Python's `float()` raises on a
non-numeric token. -/
inductive GeomError where
  | malformed
  | valueError
deriving DecidableEq

/-- The loop body of `bbox_to_corners`: strip the point, split on a single
space, check that exactly 2 tokens result, then parse `lat` and `lng` with
`float()` (the code parses `lat` first; both failures surface as
`ValueError`). -/
def parse_pair (point : List Char) : Except GeomError (ℚ × ℚ) :=
  let point := stripChars point
  let lng_lat := splitOnChar ' ' point
  if lng_lat.length ≠ 2 then .error .malformed
  else
    match parseFloat (lng_lat.getD 1 []), parseFloat (lng_lat.getD 0 []) with
    | some lat, some lng => .ok (lng, lat)
    | _, _ => .error .valueError

/-- The `for point in points` loop of `bbox_to_corners`, processing the
pairs left to right and propagating the first error. -/
def parse_pairs : List (List Char) → Except GeomError (List (ℚ × ℚ))
  | [] => .ok []
  | p :: ps =>
    match parse_pair p with
    | .error e => .error e
    | .ok q =>
      match parse_pairs ps with
      | .error e => .error e
      | .ok qs => .ok (q :: qs)

/-- The string pipeline at the top of `bbox_to_corners`:
`geometry.split('(')[-1]`, `.replace(')', '')`, `.strip()`, `.split(',')`. -/
def points_of (bbox_geometry : String) : List (List Char) :=
  let geometry := (splitOnChar '(' bbox_geometry.data).getLastD []
  let geometry := geometry.filter (fun c => c ≠ ')')
  let geometry := stripChars geometry
  splitOnChar ',' geometry

/-- `bbox_to_corners`: parse a postgis Box2D string into
`[MIN_X, MIN_Y, MAX_X, MAX_Y]`, the corners taken literally from the first
then the second comma-separated pair. -/
def bbox_to_corners (bbox_geometry : String) : Except GeomError (List ℚ) :=
  let points := points_of bbox_geometry
  if points.length ≠ 2 then .error .malformed
  else
    match parse_pairs points with
    | .error e => .error e
    | .ok clean_pts =>
      if clean_pts.length ≠ 2 then .error .malformed
      else
        .ok [(clean_pts.getD 0 (0, 0)).1, (clean_pts.getD 0 (0, 0)).2,
             (clean_pts.getD 1 (0, 0)).1, (clean_pts.getD 1 (0, 0)).2]

/-- The closed polygon ring `bbox_to_GeoJSON` builds from the four corners:
the four box corners counter-clockwise from the lower left, with the first
repeated as fifth. -/
def bbox_ring (MIN_X MIN_Y MAX_X MAX_Y : ℚ) : List (ℚ × ℚ) :=
  [(MIN_X, MIN_Y), (MAX_X, MIN_Y), (MAX_X, MAX_Y), (MIN_X, MAX_Y), (MIN_X, MIN_Y)]

/-- The parts of the `bbox_to_GeoJSON` feature collection the claims are
about: the named CRS and the single polygon ring. -/
structure GeoJSONPolygonFC where
  crsName : String
  ring : List (ℚ × ℚ)
deriving DecidableEq

/-- `bbox_to_GeoJSON`: parse the Box2D string with `bbox_to_corners` and
wrap the corners into a feature collection with CRS
`urn:ogc:def:crs:EPSG::{bbox_crs}` (writing the optional output file is
outside the model). -/
def bbox_to_GeoJSON (bbox_geometry : String) (bbox_crs : String) :
    Except GeomError GeoJSONPolygonFC :=
  match bbox_to_corners bbox_geometry with
  | .error e => .error e
  | .ok corners =>
    .ok { crsName := "urn:ogc:def:crs:EPSG::" ++ bbox_crs,
          ring := bbox_ring (corners.getD 0 0) (corners.getD 1 0)
                    (corners.getD 2 0) (corners.getD 3 0) }

/-- Decidable equality of `Except` results, for evaluating the parser on
concrete geometry strings. -/
instance {ε α : Type} [DecidableEq ε] [DecidableEq α] : DecidableEq (Except ε α) := fun x y =>
  match x, y with
  | .error a, .error b =>
    if h : a = b then .isTrue (h ▸ rfl)
    else .isFalse (fun hc => h (Except.error.inj hc))
  | .error _, .ok _ => .isFalse (fun hc => Except.noConfusion hc)
  | .ok _, .error _ => .isFalse (fun hc => Except.noConfusion hc)
  | .ok a, .ok b =>
    if h : a = b then .isTrue (h ▸ rfl)
    else .isFalse (fun hc => h (Except.ok.inj hc))

theorem parse_pair_malformed_iff (p : List Char) :
    parse_pair p = .error .malformed ↔ (splitOnChar ' ' (stripChars p)).length ≠ 2 := by
  simp only [parse_pair]
  split_ifs with h
  · simp [h]
  · rcases h1 : parseFloat ((splitOnChar ' ' (stripChars p)).getD 1 []) with _ | lat <;>
      rcases h2 : parseFloat ((splitOnChar ' ' (stripChars p)).getD 0 []) with _ | lng <;>
      simp [h]

theorem parse_pairs_length (ps : List (List Char)) :
    ∀ l : List (ℚ × ℚ), parse_pairs ps = .ok l → l.length = ps.length := by
  induction ps with
  | nil =>
    intro l h
    simp only [parse_pairs] at h
    have : ([] : List (ℚ × ℚ)) = l := Except.ok.inj h
    simp [← this]
  | cons p ps ih =>
    intro l h
    simp only [parse_pairs] at h
    rcases h1 : parse_pair p with e | q
    · rw [h1] at h
      exact absurd h (by simp)
    · rw [h1] at h
      rcases h2 : parse_pairs ps with e | qs
      · rw [h2] at h
        exact absurd h (by simp)
      · rw [h2] at h
        have hqs : q :: qs = l := Except.ok.inj h
        rw [← hqs]
        simp [ih qs h2]

/- ## Claims about the geometry-text parser -/

unseal Rat.inv Rat.add Rat.sub Rat.mul in
/-- Claim C4, amended: `bbox_to_corners` raises the malformed-geometry error
when the parenthesized group does not split into 2 comma-separated pairs, or
when a pair does not split into exactly 2 space-separated tokens and every
earlier pair parsed; conversely a malformed-geometry error only arises from
one of those two situations (a non-numeric token in an earlier pair raises
`ValueError` instead).  When both pairs parse, the corners are returned
literally from the first then the second pair; in particular
`BOX(10.0 20.0,30.0 40.0)` yields `[10, 20, 30, 40]` and `BOX(1 2)` is
malformed. -/
theorem bbox_to_corners_errors (s : String) :
    ((points_of s).length ≠ 2 → bbox_to_corners s = .error .malformed)
    ∧ (bbox_to_corners s = .error .malformed →
        (points_of s).length ≠ 2
        ∨ ∃ p ∈ points_of s, (splitOnChar ' ' (stripChars p)).length ≠ 2)
    ∧ (∀ p1 p2, points_of s = [p1, p2] →
        (splitOnChar ' ' (stripChars p1)).length ≠ 2 →
        bbox_to_corners s = .error .malformed)
    ∧ (∀ p1 p2 q1, points_of s = [p1, p2] → parse_pair p1 = .ok q1 →
        (splitOnChar ' ' (stripChars p2)).length ≠ 2 →
        bbox_to_corners s = .error .malformed)
    ∧ (∀ p1 p2 x0 y0 x1 y1, points_of s = [p1, p2] →
        parse_pair p1 = .ok (x0, y0) → parse_pair p2 = .ok (x1, y1) →
        bbox_to_corners s = .ok [x0, y0, x1, y1])
    ∧ bbox_to_corners "BOX(10.0 20.0,30.0 40.0)" = .ok [10, 20, 30, 40]
    ∧ bbox_to_corners "BOX(1 2)" = .error .malformed := by
  refine ⟨?_, ?_, ?_, ?_, ?_, by decide, by decide⟩
  · intro h
    simp only [bbox_to_corners]
    rw [if_pos h]
  · intro h
    by_cases hl : (points_of s).length = 2
    · right
      obtain ⟨p1, p2, hps⟩ := List.length_eq_two.mp hl
      simp only [bbox_to_corners, hps] at h
      rw [if_neg (by simp)] at h
      rcases h1 : parse_pair p1 with e | q1
      · have he : parse_pairs [p1, p2] = .error e := by simp [parse_pairs, h1]
        rw [he] at h
        have : e = GeomError.malformed := Except.error.inj h
        rw [this] at h1
        exact ⟨p1, by simp [hps], (parse_pair_malformed_iff p1).mp h1⟩
      · rcases h2 : parse_pair p2 with e | q2
        · have he : parse_pairs [p1, p2] = .error e := by simp [parse_pairs, h1, h2]
          rw [he] at h
          have : e = GeomError.malformed := Except.error.inj h
          rw [this] at h2
          exact ⟨p2, by simp [hps], (parse_pair_malformed_iff p2).mp h2⟩
        · have he : parse_pairs [p1, p2] = .ok [q1, q2] := by simp [parse_pairs, h1, h2]
          rw [he] at h
          simp at h
    · exact Or.inl hl
  · intro p1 p2 hps htok
    simp only [bbox_to_corners, hps]
    rw [if_neg (by simp)]
    have h1 : parse_pair p1 = .error .malformed := (parse_pair_malformed_iff p1).mpr htok
    simp [parse_pairs, h1]
  · intro p1 p2 q1 hps h1 htok
    simp only [bbox_to_corners, hps]
    rw [if_neg (by simp)]
    have h2 : parse_pair p2 = .error .malformed := (parse_pair_malformed_iff p2).mpr htok
    simp [parse_pairs, h1, h2]
  · intro p1 p2 x0 y0 x1 y1 hps h1 h2
    simp only [bbox_to_corners, hps]
    rw [if_neg (by simp)]
    simp [parse_pairs, h1, h2]

unseal Rat.inv Rat.add Rat.sub Rat.mul in
/-- Claim C4, counterexample to the claim as stated: in
`BOX(x y,1 2 3)` the group has exactly 2 comma-separated pairs and the
second pair has 3 tokens, so the claim predicts the malformed-geometry
error; the code instead fails on `float()` of the first pair's non-numeric
token, raising `ValueError`. -/
theorem bbox_to_corners_claim_counterexample :
    (points_of "BOX(x y,1 2 3)").length = 2
    ∧ "1 2 3".data ∈ points_of "BOX(x y,1 2 3)"
    ∧ (splitOnChar ' ' (stripChars "1 2 3".data)).length ≠ 2
    ∧ bbox_to_corners "BOX(x y,1 2 3)" = .error .valueError
    ∧ GeomError.valueError ≠ GeomError.malformed :=
  ⟨by decide, by decide, by decide, by decide, by decide⟩

unseal Rat.inv Rat.add Rat.sub Rat.mul in
/-- Witness for `bbox_to_corners_errors`: the success case on
`BOX(0 1,2 3)`. -/
theorem bbox_to_corners_errors_witness :
    bbox_to_corners "BOX(0 1,2 3)" = .ok [0, 1, 2, 3] :=
  (bbox_to_corners_errors "BOX(0 1,2 3)").2.2.2.2.1
    ("0 1".data) ("2 3".data) 0 1 2 3 rfl rfl rfl

/-- Claim C7: for every bounding box `[MIN_X, MIN_Y, MAX_X, MAX_Y]`, the
polygon ring of `bbox_to_GeoJSON` has exactly 5 coordinate pairs, its first
and last pairs coincide, and its first four entries are the four corners
`[MIN_X, MIN_Y], [MAX_X, MIN_Y], [MAX_X, MAX_Y], [MIN_X, MAX_Y]` — so
re-reading the ring reproduces the corners in order. -/
theorem bbox_ring_closed (MIN_X MIN_Y MAX_X MAX_Y : ℚ) :
    (bbox_ring MIN_X MIN_Y MAX_X MAX_Y).length = 5
    ∧ (bbox_ring MIN_X MIN_Y MAX_X MAX_Y).head?
        = (bbox_ring MIN_X MIN_Y MAX_X MAX_Y).getLast?
    ∧ (bbox_ring MIN_X MIN_Y MAX_X MAX_Y).take 4
        = [(MIN_X, MIN_Y), (MAX_X, MIN_Y), (MAX_X, MAX_Y), (MIN_X, MAX_Y)]
    ∧ (∀ s crs, bbox_to_corners s = .ok [MIN_X, MIN_Y, MAX_X, MAX_Y] →
        bbox_to_GeoJSON s crs
          = .ok ⟨"urn:ogc:def:crs:EPSG::" ++ crs, bbox_ring MIN_X MIN_Y MAX_X MAX_Y⟩) := by
  refine ⟨rfl, by simp [bbox_ring], rfl, ?_⟩
  intro s crs h
  simp [bbox_to_GeoJSON, h]

unseal Rat.inv Rat.add Rat.sub Rat.mul in
/-- Witness for `bbox_ring_closed` at the unit box `[0, 0, 1, 1]`: the ring
of `bbox_to_GeoJSON` on the parsed string `BOX(0 0,1 1)`. -/
theorem bbox_ring_closed_witness :
    bbox_to_GeoJSON "BOX(0 0,1 1)" "4326"
      = .ok ⟨"urn:ogc:def:crs:EPSG::" ++ "4326", bbox_ring 0 0 1 1⟩
    ∧ (bbox_ring (0 : ℚ) 0 1 1).length = 5 :=
  ⟨(bbox_ring_closed 0 0 1 1).2.2.2 "BOX(0 0,1 1)" "4326" (by decide),
    (bbox_ring_closed 0 0 1 1).1⟩

/- ## Raster geometry (`satdata` fields used by the core) -/

/-- The fields of a rasterio dataset the core reads: bounds, pixel
dimensions, and the CRS string of `satdata.meta['crs']` (e.g. `EPSG:4326`).
Bounds and coordinates are exact rationals. -/
structure SatData where
  left : ℚ
  bottom : ℚ
  right : ℚ
  top : ℚ
  width : ℕ
  height : ℕ
  crs : String

/-- The CRS code parse `str(crs).split(':')[-1]` shared by `pixel_in_m`
and `crop`. -/
def crs_code (satdata : SatData) : List Char :=
  (splitOnChar ':' satdata.crs.data).getLastD []

/- ## CoordinatePixelMapper (`convert_lng_lat_to_pixel`) -/

/-- Python `int()` on an exact value: truncation toward zero. -/
def ratTrunc (q : ℚ) : ℤ :=
  if q < 0 then -⌊-q⌋ else ⌊q⌋

/-- `convert_lng_lat_to_pixel`: raise (return `none`) when `lng` or `lat`
falls strictly outside the bounds, else map to pixel coordinates measured
from the top-right corner and truncate with `int()`. -/
def convert_lng_lat_to_pixel (satdata : SatData) (lng lat : ℚ) : Option (ℤ × ℤ) :=
  if lng > satdata.right ∨ lng < satdata.left then none
  else if lat > satdata.top ∨ lat < satdata.bottom then none
  else
    let width_in_projected_units := |satdata.right - satdata.left|
    let height_in_projected_units := |satdata.top - satdata.bottom|
    let xres := (satdata.width : ℚ) / width_in_projected_units
    let yres := (satdata.height : ℚ) / height_in_projected_units
    let xpos := (satdata.right - lng) * xres
    let ypos := (satdata.top - lat) * yres
    some (ratTrunc xpos, ratTrunc ypos)

/- ## DistanceCalculator (`distance_in_m`) and PixelFootprintEstimator
(`pixel_in_m`) -/

/-- Model of `math.atan2 y x` over `ℝ`. -/
noncomputable def atan2 (y x : ℝ) : ℝ :=
  if 0 < x then Real.arctan (y / x)
  else if x < 0 then
    (if 0 ≤ y then Real.arctan (y / x) + Real.pi else Real.arctan (y / x) - Real.pi)
  else if 0 < y then Real.pi / 2
  else if y < 0 then -(Real.pi / 2)
  else 0

/-- `distance_in_m`: haversine great-circle distance in meters between two
EPSG:4326 points, with the code's `pi` constant and Earth radius
`6378.137 * 1000`. -/
noncomputable def distance_in_m (lat1 lon1 lat2 lon2 : ℝ) : ℝ :=
  let pi : ℝ := 3.14159265358979
  let R_earth : ℝ := 6378.137 * 1000
  let dLat := lat2 * pi / 180 - lat1 * pi / 180
  let dLon := lon2 * pi / 180 - lon1 * pi / 180
  let a := Real.sin (dLat / 2) * Real.sin (dLat / 2)
    + Real.cos (lat1 * pi / 180) * Real.cos (lat2 * pi / 180)
      * Real.sin (dLon / 2) * Real.sin (dLon / 2)
  let c := 2 * atan2 (Real.sqrt a) (Real.sqrt (1 - a))
  R_earth * c

/-- Round half to even on `ℝ`: Python's built-in `round` on an exact
value. -/
noncomputable def py_round (x : ℝ) : ℤ :=
  if Int.fract x < 1 / 2 then ⌊x⌋
  else if 1 / 2 < Int.fract x then ⌊x⌋ + 1
  else if ⌊x⌋ % 2 = 0 then ⌊x⌋ else ⌊x⌋ + 1

/-- `pixel_in_m`: `none` unless the parsed CRS code is `4326`; otherwise the
four haversine edge lengths of the bounds, averaged into mean width and
height, divided by the pixel dimensions, rounded to 2 decimals via
`round(xres*100.0)/100.0`. -/
noncomputable def pixel_in_m (satdata : SatData) : Option (List ℝ) :=
  let crs := crs_code satdata
  if crs = "4326".data then
    let top_dist := distance_in_m satdata.top satdata.left satdata.top satdata.right
    let bottom_dist := distance_in_m satdata.bottom satdata.left satdata.bottom satdata.right
    let left_dist := distance_in_m satdata.top satdata.left satdata.bottom satdata.left
    let right_dist := distance_in_m satdata.top satdata.right satdata.bottom satdata.right
    let ave_width := (top_dist + bottom_dist) / 2
    let ave_height := (left_dist + right_dist) / 2
    let xres := ave_width / (satdata.width : ℝ)
    let yres := ave_height / (satdata.height : ℝ)
    let xres := ((py_round (xres * 100) : ℤ) : ℝ) / 100
    let yres := ((py_round (yres * 100) : ℤ) : ℝ) / 100
    some [xres, yres]
  else none

/-- Modelled from the spec's words (for comparison with `pixel_in_m`):
meters per pixel as the averaged haversine lengths of the top/bottom edges
over `width` and of the left/right edges over `height`, each rounded to two
decimal places. -/
noncomputable def pixelSizeMetersSpec (satdata : SatData) : List ℝ :=
  [((py_round ((distance_in_m satdata.top satdata.left satdata.top satdata.right
      + distance_in_m satdata.bottom satdata.left satdata.bottom satdata.right) / 2
      / (satdata.width : ℝ) * 100) : ℤ) : ℝ) / 100,
   ((py_round ((distance_in_m satdata.top satdata.left satdata.bottom satdata.left
      + distance_in_m satdata.top satdata.right satdata.bottom satdata.right) / 2
      / (satdata.height : ℝ) * 100) : ℤ) : ℝ) / 100]

theorem ratTrunc_of_nonneg (q : ℚ) (h : 0 ≤ q) : ratTrunc q = ⌊q⌋ := by
  unfold ratTrunc
  rw [if_neg (not_lt.2 h)]

theorem convert_in_bounds (satdata : SatData)
    (hlr : satdata.left < satdata.right) (hbt : satdata.bottom < satdata.top)
    (lng lat : ℚ) (h1 : satdata.left ≤ lng) (h2 : lng ≤ satdata.right)
    (h3 : satdata.bottom ≤ lat) (h4 : lat ≤ satdata.top) :
    convert_lng_lat_to_pixel satdata lng lat
      = some (⌊(satdata.right - lng) * ((satdata.width : ℚ) / (satdata.right - satdata.left))⌋,
              ⌊(satdata.top - lat) * ((satdata.height : ℚ) / (satdata.top - satdata.bottom))⌋) := by
  have habs1 : |satdata.right - satdata.left| = satdata.right - satdata.left :=
    abs_of_pos (by linarith)
  have habs2 : |satdata.top - satdata.bottom| = satdata.top - satdata.bottom :=
    abs_of_pos (by linarith)
  simp only [convert_lng_lat_to_pixel]
  rw [if_neg (by push_neg; exact ⟨h2, h1⟩), if_neg (by push_neg; exact ⟨h4, h3⟩)]
  rw [habs1, habs2]
  rw [ratTrunc_of_nonneg _ (mul_nonneg (by linarith)
        (div_nonneg (by positivity) (by linarith)))]
  rw [ratTrunc_of_nonneg _ (mul_nonneg (by linarith)
        (div_nonneg (by positivity) (by linarith)))]

/-- Claim C2: `convert_lng_lat_to_pixel` fails (returns `none`, the
`OutOfBoundsError`) exactly when `lng` lies outside `[left, right]` or `lat`
outside `[bottom, top]`; in bounds, on a geometry with `right > left` and
`top > bottom`, it returns
`(floor((right-lng) * width/(right-left)), floor((top-lat) * height/(top-bottom)))`
(the `int()` truncation coincides with `floor` on these nonnegative values),
so the exact top-right corner maps to `(0, 0)`. -/
theorem convert_lng_lat_to_pixel_spec (satdata : SatData)
    (hlr : satdata.left < satdata.right) (hbt : satdata.bottom < satdata.top) :
    (∀ lng lat : ℚ, convert_lng_lat_to_pixel satdata lng lat = none ↔
      (lng < satdata.left ∨ satdata.right < lng ∨ lat < satdata.bottom ∨ satdata.top < lat))
    ∧ (∀ lng lat : ℚ, satdata.left ≤ lng → lng ≤ satdata.right →
        satdata.bottom ≤ lat → lat ≤ satdata.top →
        convert_lng_lat_to_pixel satdata lng lat
          = some (⌊(satdata.right - lng) * ((satdata.width : ℚ) / (satdata.right - satdata.left))⌋,
                  ⌊(satdata.top - lat) * ((satdata.height : ℚ) / (satdata.top - satdata.bottom))⌋))
    ∧ convert_lng_lat_to_pixel satdata satdata.right satdata.top = some (0, 0) := by
  refine ⟨fun lng lat => ?_, convert_in_bounds satdata hlr hbt, ?_⟩
  · constructor
    · intro hnone
      by_contra hcon
      push_neg at hcon
      obtain ⟨hc1, hc2, hc3, hc4⟩ := hcon
      rw [convert_in_bounds satdata hlr hbt lng lat hc1 hc2 hc3 hc4] at hnone
      exact Option.noConfusion hnone
    · intro hd
      simp only [convert_lng_lat_to_pixel]
      rcases hd with h | h | h | h
      · rw [if_pos (Or.inr h)]
      · rw [if_pos (Or.inl h)]
      · by_cases hc : lng > satdata.right ∨ lng < satdata.left
        · rw [if_pos hc]
        · rw [if_neg hc, if_pos (Or.inr h)]
      · by_cases hc : lng > satdata.right ∨ lng < satdata.left
        · rw [if_pos hc]
        · rw [if_neg hc, if_pos (Or.inl h)]
  · rw [convert_in_bounds satdata hlr hbt satdata.right satdata.top
        (le_of_lt hlr) (le_refl _) (le_of_lt hbt) (le_refl _)]
    simp

/-- Witness for `convert_lng_lat_to_pixel_spec`: the top-right corner of a
concrete 100×50 raster over `[0,10]×[0,10]` maps to `(0, 0)`. -/
theorem convert_lng_lat_to_pixel_spec_witness :
    convert_lng_lat_to_pixel ⟨0, 0, 10, 10, 100, 50, "EPSG:4326"⟩ 10 10 = some (0, 0) :=
  (convert_lng_lat_to_pixel_spec ⟨0, 0, 10, 10, 100, 50, "EPSG:4326"⟩
    (by decide) (by decide)).2.2

/-- Claim C10: the in-bounds calls at the corner opposite the top-right
origin overflow the pixel grid without an error: `lng = left` yields
`x = width` and `lat = bottom` yields `y = height`, each one past the
largest valid pixel index (`width - 1`, `height - 1`). -/
theorem convert_lng_lat_to_pixel_overflow (satdata : SatData)
    (hlr : satdata.left < satdata.right) (hbt : satdata.bottom < satdata.top) :
    (∀ lat : ℚ, satdata.bottom ≤ lat → lat ≤ satdata.top →
      convert_lng_lat_to_pixel satdata satdata.left lat
        = some ((satdata.width : ℤ),
            ⌊(satdata.top - lat) * ((satdata.height : ℚ) / (satdata.top - satdata.bottom))⌋))
    ∧ (∀ lng : ℚ, satdata.left ≤ lng → lng ≤ satdata.right →
      convert_lng_lat_to_pixel satdata lng satdata.bottom
        = some (⌊(satdata.right - lng) * ((satdata.width : ℚ) / (satdata.right - satdata.left))⌋,
            (satdata.height : ℤ))) := by
  have hne1 : satdata.right - satdata.left ≠ 0 := sub_ne_zero.2 (ne_of_gt hlr)
  have hne2 : satdata.top - satdata.bottom ≠ 0 := sub_ne_zero.2 (ne_of_gt hbt)
  have hwq : (satdata.right - satdata.left) * ((satdata.width : ℚ) / (satdata.right - satdata.left))
      = (satdata.width : ℚ) := by
    rw [mul_comm]
    exact div_mul_cancel₀ _ hne1
  have hhq : (satdata.top - satdata.bottom) * ((satdata.height : ℚ) / (satdata.top - satdata.bottom))
      = (satdata.height : ℚ) := by
    rw [mul_comm]
    exact div_mul_cancel₀ _ hne2
  constructor
  · intro lat h3 h4
    rw [convert_in_bounds satdata hlr hbt satdata.left lat (le_refl _) (le_of_lt hlr) h3 h4]
    rw [hwq, Int.floor_natCast]
  · intro lng h1 h2
    rw [convert_in_bounds satdata hlr hbt lng satdata.bottom h1 h2 (le_refl _) (le_of_lt hbt)]
    rw [hhq, Int.floor_natCast]

/-- Witness for `convert_lng_lat_to_pixel_overflow`: on a 100-pixel-wide
raster over `[0,10]×[0,10]`, the in-bounds point `(0, 5)` is sent to
`x = 100 = width`. -/
theorem convert_lng_lat_to_pixel_overflow_witness :
    convert_lng_lat_to_pixel ⟨0, 0, 10, 10, 100, 50, "EPSG:4326"⟩ 0 5
      = some ((100 : ℤ), ⌊((10 : ℚ) - 5) * ((50 : ℚ) / ((10 : ℚ) - 0))⌋) :=
  (convert_lng_lat_to_pixel_overflow ⟨0, 0, 10, 10, 100, 50, "EPSG:4326"⟩
    (by decide) (by decide)).1 5 (by decide) (by decide)

/-- Claim C6: for every raster geometry whose parsed CRS code is not the
string `4326`, `pixel_in_m` returns `None`. -/
theorem pixel_in_m_none_of_crs (satdata : SatData)
    (h : crs_code satdata ≠ "4326".data) : pixel_in_m satdata = none := by
  simp only [pixel_in_m]
  rw [if_neg h]

/-- Witness for `pixel_in_m_none_of_crs`: a raster tagged `EPSG:32633`
gets `none`. -/
theorem pixel_in_m_none_of_crs_witness :
    crs_code ⟨0, 0, 1, 1, 1, 1, "EPSG:32633"⟩ ≠ "4326".data
    ∧ pixel_in_m ⟨0, 0, 1, 1, 1, 1, "EPSG:32633"⟩ = none :=
  ⟨by decide, pixel_in_m_none_of_crs _ (by decide)⟩

/-- Claim C8: for every raster geometry with CRS code `4326` and positive
pixel dimensions, `pixel_in_m` returns `[xres, yres]` with `xres` the
average of the haversine lengths of the top and bottom edges of the bounds
divided by `width`, `yres` the average of the left and right edge lengths
divided by `height`, both rounded to 2 decimal places
(`pixelSizeMetersSpec`, written from the spec's words). -/
theorem pixel_in_m_matches_spec (satdata : SatData)
    (hcrs : crs_code satdata = "4326".data)
    (hw : 0 < satdata.width) (hh : 0 < satdata.height) :
    pixel_in_m satdata = some (pixelSizeMetersSpec satdata) := by
  simp [pixel_in_m, pixelSizeMetersSpec, hcrs]

/-- Witness for `pixel_in_m_matches_spec` on a concrete 10×10 EPSG:4326
raster over `[0,1]×[0,1]`. -/
theorem pixel_in_m_matches_spec_witness :
    (crs_code ⟨0, 0, 1, 1, 10, 10, "EPSG:4326"⟩ = "4326".data
      ∧ 0 < (10 : ℕ))
    ∧ pixel_in_m ⟨0, 0, 1, 1, 10, 10, "EPSG:4326"⟩
        = some (pixelSizeMetersSpec ⟨0, 0, 1, 1, 10, 10, "EPSG:4326"⟩) :=
  ⟨⟨by decide, by decide⟩,
    pixel_in_m_matches_spec ⟨0, 0, 1, 1, 10, 10, "EPSG:4326"⟩ (by decide) (by decide) (by decide)⟩

theorem hav_sym (Y1 Y2 X1 X2 : ℝ) :
    Real.sin ((Y2 - Y1) / 2) * Real.sin ((Y2 - Y1) / 2)
      + Real.cos Y1 * Real.cos Y2 * Real.sin ((X2 - X1) / 2) * Real.sin ((X2 - X1) / 2)
    = Real.sin ((Y1 - Y2) / 2) * Real.sin ((Y1 - Y2) / 2)
      + Real.cos Y2 * Real.cos Y1 * Real.sin ((X1 - X2) / 2) * Real.sin ((X1 - X2) / 2) := by
  rw [show (Y1 - Y2) / 2 = -((Y2 - Y1) / 2) by ring,
      show (X1 - X2) / 2 = -((X2 - X1) / 2) by ring,
      Real.sin_neg, Real.sin_neg]
  ring

/-- Claim C9: `distance_in_m` is symmetric — swapping the two points gives
the same distance. -/
theorem distance_in_m_symm (lat1 lon1 lat2 lon2 : ℝ) :
    distance_in_m lat1 lon1 lat2 lon2 = distance_in_m lat2 lon2 lat1 lon1 := by
  simp only [distance_in_m]
  rw [hav_sym (lat1 * 3.14159265358979 / 180) (lat2 * 3.14159265358979 / 180)
      (lon1 * 3.14159265358979 / 180) (lon2 * 3.14159265358979 / 180)]
